import Mathlib

/-!
Shallow embedding of the agentic-travel-agent repository
(src/agents/agent.py, src/agents/tools/hotels_finder.py,
src/agents/tools/itinerary_builder.py) and proofs about its
tool-calling orchestration loop and tool-boundary validation.
-/

namespace TravelAgent

/-! ## Calendar dates (model of Python `datetime.date`) -/

/-- A calendar date, as produced by `datetime.strptime(s, "%Y-%m-%d").date()`. -/
structure Date where
  year : Nat
  month : Nat
  day : Nat
  deriving Repr, DecidableEq

/-- Gregorian leap-year rule, as in Python's `datetime`. -/
def isLeapYear (y : Nat) : Bool :=
  y % 4 == 0 && (y % 100 != 0 || y % 400 == 0)

/-- Number of days in month `m` of year `y`. -/
def daysInMonth (y m : Nat) : Nat :=
  if m == 2 then (if isLeapYear y then 29 else 28)
  else if m == 4 || m == 6 || m == 9 || m == 11 then 30
  else 31

/-- Strict order on dates: Python `date.__lt__` (lexicographic on y, m, d). -/
def dateLt (a b : Date) : Bool :=
  Nat.blt a.year b.year ||
    (a.year == b.year && (Nat.blt a.month b.month ||
      (a.month == b.month && Nat.blt a.day b.day)))

/-- Non-strict order on dates: Python `date.__le__`. -/
def dateLe (a b : Date) : Bool :=
  dateLt a b || (a.year == b.year && a.month == b.month && a.day == b.day)

/-- Split a character list at every dash (the `-` separators of the
`%Y-%m-%d` format). -/
def splitDash : List Char → List (List Char)
  | [] => [[]]
  | c :: cs =>
    let r := splitDash cs
    if c = '-' then [] :: r
    else
      match r with
      | [] => [[c]]
      | g :: gs => (c :: g) :: gs

/-- Decimal value of one component: `none` on an empty component or a
non-digit character. -/
def digitsToNatAux : List Char → Nat → Option Nat
  | [], acc => some acc
  | c :: cs, acc =>
    if c.isDigit then digitsToNatAux cs (acc * 10 + (c.toNat - 48))
    else none

/-- Decimal value of one date component. -/
def digitsToNat : List Char → Option Nat
  | [] => none
  | c :: cs => digitsToNatAux (c :: cs) 0

/-- Model of `datetime.strptime(s, "%Y-%m-%d").date()`: three dash-separated
decimal components with calendar-valid month and day; `none` models the
`strptime` exception path (caught in `hotels_finder` as a format error). -/
def parseDate (s : String) : Option Date :=
  match (splitDash s.data).map digitsToNat with
  | [some y, some m, some d] =>
    if 1 ≤ m && m ≤ 12 && 1 ≤ d && d ≤ daysInMonth y m then
      some ⟨y, m, d⟩
    else
      none
  | _ => none

/-! ## hotels_finder (src/agents/tools/hotels_finder.py) -/

/-- Input record of `hotels_finder` (pydantic `HotelsInput`), with the source's
field defaults. -/
structure HotelsInput where
  q : String
  check_in_date : String
  check_out_date : String
  sort_by : Option String := some "8"
  adults : Option Int := some 1
  children : Option Int := some 0
  rooms : Option Int := some 1
  hotel_class : Option String := none
  deriving Repr, DecidableEq

/-- The query dict `hotels_finder` builds for `serpapi.search`. -/
structure HotelsQuery where
  api_key : Option String
  engine : String
  hl : String
  gl : String
  q : String
  check_in_date : String
  check_out_date : String
  currency : String
  adults : Option Int
  children : Option Int
  rooms : Option Int
  sort_by : Option String
  hotel_class : Option String
  deriving Repr, DecidableEq

/-- Outcome of `hotels_finder` up to the point of the external call:
either an error record `{'error': msg}` returned before any external call,
or the external `serpapi.search(query)` invocation (whose own result or
fault is handled downstream of this step). `errorRecord` therefore means
zero external search calls were issued. -/
inductive HotelsFinderStep where
  | errorRecord (msg : String)
  | externalSearch (query : HotelsQuery)
  deriving Repr, DecidableEq

/-- Embedding of `hotels_finder` (validation and query construction).
`apiKey` models `os.environ.get('SERPAPI_API_KEY')` and `today` models
`date.today()`. The empty-string tests model Python truthiness of the
required string fields. -/
def hotels_finder (apiKey : Option String) (params : HotelsInput)
    (today : Date) : HotelsFinderStep :=
  if params.q = "" || params.check_in_date = "" || params.check_out_date = "" then
    .errorRecord "Missing required parameters: q, check_in_date, check_out_date"
  else
    match parseDate params.check_in_date, parseDate params.check_out_date with
    | some ci, some co =>
      if dateLt ci today then
        .errorRecord "`check_in_date` cannot be in the past."
      else if dateLe co ci then
        .errorRecord "`check_out_date` must be after `check_in_date`."
      else
        .externalSearch
          { api_key := apiKey
            engine := "google_hotels"
            hl := "en"
            gl := "us"
            q := params.q
            check_in_date := params.check_in_date
            check_out_date := params.check_out_date
            currency := "USD"
            adults := params.adults
            children := params.children
            rooms := params.rooms
            sort_by := params.sort_by
            hotel_class := params.hotel_class }
    | _, _ => .errorRecord "Dates must be in YYYY-MM-DD format"

/-! ## build_itinerary (src/agents/tools/itinerary_builder.py) -/

/-- Input record of `build_itinerary` (pydantic `ItineraryInput`). -/
structure ItineraryInput where
  destination : String
  days : Int
  travelers : Option Int := none
  interests : Option (List String) := none
  deriving Repr, DecidableEq

/-- System prompt of the itinerary generator (`ITINERARY_SYSTEM_PROMPT`). -/
def ITINERARY_SYSTEM_PROMPT : String :=
  "You are a professional travel planner.\n" ++
  "Create a detailed, structured itinerary with:\n" ++
  "- Day-by-day plan\n" ++
  "- Hour-by-hour schedule\n" ++
  "- Best time to visit each attraction\n" ++
  "- Transportation instructions (MRT/Bus/Taxi/Walking)\n" ++
  "- Food recommendations\n" ++
  "- Distance/time between places\n" ++
  "- Opening/closing hours when relevant\n" ++
  "- Avoid backtracking geographically\n" ++
  "- Optimize each day logically\n" ++
  "- Output in clean Markdown with headings, bullet points, time blocks,\n" ++
  "  attraction lists, food lists, and travel hints.\n"

/-- Outcome of `build_itinerary` up to the point of the model call: either a
string returned with zero model calls, or the generation call
`llm.invoke([SystemMessage, HumanMessage])` (its result or fault handled
downstream; the call is made with `temperature=0.7`, a configuration value
not needed by any property here). -/
inductive ItineraryStep where
  | pureResult (s : String)
  | llmGeneration (systemPrompt userPrompt : String)
  deriving Repr, DecidableEq

/-- The `interests_text` local of `build_itinerary`: Python truthiness makes
both `None` and `[]` fall to `"none specified"`. -/
def interestsText (interests : Option (List String)) : String :=
  match interests with
  | some (x :: xs) => String.intercalate ", " (x :: xs)
  | _ => "none specified"

/-- The `travelers_text` local of `build_itinerary`: Python truthiness makes
both `None` and `0` fall to the generic text. -/
def travelersText (travelers : Option Int) : String :=
  match travelers with
  | some n => if n = 0 then "for the traveler(s)" else s!"for {n} travelers"
  | none => "for the traveler(s)"

/-- The `user_prompt` local of `build_itinerary`. -/
def itineraryUserPrompt (params : ItineraryInput) : String :=
  let d := params.days
  let dest := params.destination
  s!"Build a {d}-day itinerary for {dest} " ++
  travelersText params.travelers ++ ".\n" ++
  "Interests: " ++ interestsText params.interests ++ ".\n\n" ++
  "Requirements:\n" ++
  "- Provide an hour-by-hour plan for each day.\n" ++
  "- Include transport instructions (MRT/Bus/Taxi/Walking).\n" ++
  "- Include food recommendations near attractions.\n" ++
  "- Provide distance/time between places and maps/distance hints.\n" ++
  "- Note opening/closing hours where relevant.\n" ++
  "- Avoid backtracking geographically; optimize route order logically each day.\n" ++
  "- End each day with a short summary and optional alternatives.\n" ++
  "- Output in clean Markdown with headings, bullet points, and time blocks.\n"

/-- Embedding of `build_itinerary`: day-count validation, then the model
call for generation. -/
def build_itinerary (params : ItineraryInput) : ItineraryStep :=
  if params.days < 1 then
    .pureResult "Error: `days` must be >= 1."
  else
    .llmGeneration ITINERARY_SYSTEM_PROMPT (itineraryUserPrompt params)

/-! ## Message data model (src/agents/agent.py)

Message entries mirror the langchain message classes threaded through
`AgentState.messages`: `SystemMessage`, `HumanMessage`, `AIMessage` (which
carries `tool_calls`), and `ToolMessage`. -/

/-- A tool-call request emitted by the model (one entry of
`AIMessage.tool_calls`): `{ id, name, args }`; the argument record is kept
opaque as its serialized form. -/
structure ToolInvocationRequest where
  id : String
  name : String
  args : String
  deriving Repr, DecidableEq

/-- A `ToolMessage(tool_call_id=..., name=..., content=str(result))`. -/
structure ToolMessage where
  tool_call_id : String
  name : String
  content : String
  deriving Repr, DecidableEq

/-- A message entry of `AgentState.messages`. -/
inductive Msg where
  | system (content : String)
  | human (content : String)
  | ai (content : String) (tool_calls : List ToolInvocationRequest)
  | tool (m : ToolMessage)
  deriving Repr, DecidableEq

/-- The `.tool_calls` attribute read by `exists_action` and `invoke_tools`;
only an `AIMessage` carries tool calls. -/
def Msg.toolCalls : Msg → List ToolInvocationRequest
  | .ai _ tcs => tcs
  | _ => []

/-- The `.content` attribute of a message. -/
def Msg.content : Msg → String
  | .system c => c
  | .human c => c
  | .ai c _ => c
  | .tool m => m.content

/-- A model reply: an `AIMessage` as returned by an llm `invoke`, before it
is appended to history. -/
structure ModelUtterance where
  content : String
  tool_calls : List ToolInvocationRequest
  deriving Repr, DecidableEq

/-! ## Model adapter (call_tools_llm, src/agents/agent.py lines 155-172) -/

/-- The two llm handles held by `Agent`: `_tools_llm` (the tool-bound
variant, which can fault — modeled as `Except` with the fault's `str(e)`
text) and `_base_llm` (the variant with no tools bound). -/
structure ModelAdapter where
  toolsLlm : List Msg → Except String ModelUtterance
  baseLlm : List Msg → ModelUtterance

/-- Contiguous-substring test on character lists (Python `pat in s` on
strings). -/
def infixOfChars (pat : List Char) : List Char → Bool
  | [] => pat.isEmpty
  | c :: cs => pat.isPrefixOf (c :: cs) || infixOfChars pat cs

/-- Python `pat in s` for strings. -/
def strContains (s pat : String) : Bool :=
  infixOfChars pat.data s.data

/-- The fault classification of `call_tools_llm`:
`"does not support tools" in err_text or ("tools" in err_text and
"support" in err_text)`. -/
def isCapabilityMismatch (errText : String) : Bool :=
  strContains errText "does not support tools" ||
    (strContains errText "tools" && strContains errText "support")

/-- `TOOLS_SYSTEM_PROMPT`, an f-string over `CURRENT_YEAR`
(`datetime.datetime.now().year`, here a parameter). -/
def TOOLS_SYSTEM_PROMPT (currentYear : Nat) : String :=
  "You are a smart AI travel planner and assistant.\n\n" ++
  "Your goal is to help the user plan their travel — including flights, hotels, and trip details.\n\n" ++
  "You can ask the user follow-up questions if some details are missing (for example, travel dates, city names, budget, or preferences).\n\n" ++
  "If the user\x27s question is ambiguous, ask questions first — do not make assumptions.\n\n" ++
  "When enough information is available, use your tools to find relevant results.\n\n" ++
  "You have access to three tools:\n" ++
  "- `flights_finder`: find flights using Google Flights.\n" ++
  "- `hotels_finder`: find hotels using Google Hotels.\n" ++
  "- `build_itinerary`: generate detailed itineraries (AI-only; no external APIs).\n\n" ++
  "Tool calling guidance:\n" ++
  "- If the user asks for a travel plan or itinerary, call `build_itinerary` with\n" ++
  "  \x7b \"params\": \x7b \"destination\": \"...\", \"days\": ..., \"travelers\": ..., \"interests\": [\"...\"] \x7d \x7d\n" ++
  "  Example triggers: \"Build a 5-day itinerary for Singapore\", \"Plan my 3 days in Goa\",\n" ++
  "  \"Give me a detailed Dubai trip plan\".\n\n" ++
  "Return your answers in a helpful, conversational format with flight/hotel names, prices, and links where possible.\n\n" ++
  "Always include:\n" ++
  "- Airline/hotel name and logo (if possible)\n" ++
  "- Prices with currency\n" ++
  "- Links to book or view details\n" ++
  "- Duration and location info\n" ++
  "- Hotel class and ratings (if available)\n\n" ++
  s!"Current year: {currentYear}\n"

/-- `EMAILS_SYSTEM_PROMPT` of the email formatting call. -/
def EMAILS_SYSTEM_PROMPT : String :=
  "Your task is to convert structured markdown-like travel data into a valid HTML email body.\n\n" ++
  "Rules:\n" ++
  "- Do not include any ```html code block preambles.\n" ++
  "- Output should be proper HTML ready to be used as email body.\n" ++
  "- Make it clean, readable, and visually formatted with headers and lists.\n\n" ++
  "Example format:\n" ++
  "<!DOCTYPE html>\n<html>\n<head><title>Trip Summary</title></head>\n<body>\n" ++
  "    <h2>Flights</h2>\n    <ul>\n" ++
  "        <li><strong>Airline:</strong> Emirates — $550 USD</li>\n    </ul>\n" ++
  "    <h2>Hotels</h2>\n    <ul>\n" ++
  "        <li><strong>Hotel:</strong> Hilton Paris — $200/night</li>\n    </ul>\n" ++
  "</body>\n</html>\n"

/-- Embedding of `Agent.call_tools_llm`: prepend the system directive,
invoke the tool-bound llm; on a fault classified as capability mismatch,
fall back to the base llm for this call (the sidebar warning is an
operator-side log, not state); any other fault is re-raised. The returned
utterance is the node's `{"messages": [message]}` delta. -/
def call_tools_llm (currentYear : Nat) (A : ModelAdapter)
    (messages : List Msg) : Except String ModelUtterance :=
  let ms := Msg.system (TOOLS_SYSTEM_PROMPT currentYear) :: messages
  match A.toolsLlm ms with
  | .ok m => .ok m
  | .error e =>
    if isCapabilityMismatch e then .ok (A.baseLlm ms)
    else .error e

/-! ## Tool registry and invoke_tools (src/agents/agent.py lines 175-196) -/

/-- A registry entry: `self._tools` maps tool name to a capability. The
capability (`tool.invoke(args)`) may fault — including argument-schema
validation faults raised before the tool body runs — which `Except.error`
models, carrying `str(e)`. -/
structure ToolDef where
  name : String
  capability : String → Except String String

/-- Name lookup in the registry dict (`t["name"] not in self._tools` /
`self._tools[t["name"]]`). -/
def lookupTool (reg : List ToolDef) (n : String) : Option ToolDef :=
  reg.find? (fun t => t.name == n)

/-- The in-band payload synthesized for an unknown tool name. -/
def invalidToolMsg : String := "Invalid tool name. Please retry."

/-- One iteration of the `for t in tool_calls` loop: unknown names yield
the synthesized error payload; a known name invokes the capability, whose
fault (uncaught in `invoke_tools`) propagates. -/
def reqStep (reg : List ToolDef) (t : ToolInvocationRequest) :
    Except String ToolMessage :=
  match lookupTool reg t.name with
  | none => .ok ⟨t.id, t.name, invalidToolMsg⟩
  | some td => (td.capability t.args).map (fun r => ⟨t.id, t.name, r⟩)

/-- Embedding of the body of `Agent.invoke_tools`: process the requests in
order, accumulating one `ToolMessage` per request; a fault raised by any
capability aborts the whole loop (nothing is returned, so nothing is
appended to history). The `.ok` list is the node's `{"messages": results}`
delta. -/
def invoke_tools (reg : List ToolDef) :
    List ToolInvocationRequest → Except String (List ToolMessage)
  | [] => .ok []
  | t :: ts =>
    match reqStep reg t with
    | .error e => .error e
    | .ok m => (invoke_tools reg ts).map (fun rest => m :: rest)

/-! ## Orchestration graph (src/agents/agent.py lines 101-127)

Nodes `call_tools_llm`, `invoke_tools`, `email_sender`; entry point
`call_tools_llm`; conditional edges from `call_tools_llm` via
`exists_action` through the mapping `{"more_tools": "invoke_tools",
"email_sender": "email_sender"}`; fixed edges `invoke_tools →
call_tools_llm` and `email_sender → END`; compiled with
`interrupt_before=["email_sender"]`, so execution pauses at the
`email_sender` node (the finalization gate) until externally resumed. -/

/-- A graph node (plus the `END` terminal). Being parked at
`Node.email_sender` models `AwaitingFinalizationGate`: the node is
scheduled but not yet executed because of `interrupt_before`. -/
inductive Node where
  | call_tools_llm
  | invoke_tools
  | email_sender
  | END
  deriving Repr, DecidableEq

/-- Embedding of `Agent.exists_action`: reads `state["messages"][-1]`
(`none` models the `IndexError` on an empty history, unreachable in the
graph) and routes on the emptiness of its `tool_calls`. -/
def exists_action (messages : List Msg) : Option String :=
  match messages.getLast? with
  | none => none
  | some result =>
    some (if result.toolCalls.length = 0 then "email_sender" else "more_tools")

/-- The conditional-edge mapping
`{"more_tools": "invoke_tools", "email_sender": "email_sender"}`. -/
def routeDecision (lbl : String) : Option Node :=
  if lbl = "more_tools" then some .invoke_tools
  else if lbl = "email_sender" then some .email_sender
  else none

/-- The `Mail(...)` payload of `email_sender`:
`{ from_email, to_emails, subject, html_content }`. -/
structure DeliveryPayload where
  sender : String
  recipient : String
  subject : String
  html_body : String
  deriving Repr, DecidableEq

/-- The environment variables `email_sender` reads
(`FROM_EMAIL`, `TO_EMAIL`, `EMAIL_SUBJECT`). -/
structure EmailEnv where
  from_email : String
  to_email : String
  subject : String
  deriving Repr, DecidableEq

/-- The loop state threaded by the graph executor: the scheduled node, the
`AgentState.messages` channel (reducer `operator.add`, so node deltas are
appended), and the trace of every `DeliveryPayload` constructed and handed
to the delivery collaborator (for expressing that none is). -/
structure LoopState where
  node : Node
  messages : List Msg
  sends : List DeliveryPayload
  deriving Repr, DecidableEq

/-- The external collaborators and configuration of one `Agent`:
`CURRENT_YEAR`, the two llm handles, the tool registry `self._tools`, the
email-formatting llm (`get_llm(temperature=0.1)`), the email environment,
and the SendGrid `send`. -/
structure Collaborators where
  currentYear : Nat
  adapter : ModelAdapter
  registry : List ToolDef
  emailLlm : List Msg → String
  env : EmailEnv
  send : DeliveryPayload → Except String Nat

/-- One execution of the `call_tools_llm` node followed by its conditional
edge: the reply is appended to `messages` (reducer `operator.add`), then
`exists_action` routes to `invoke_tools` or `email_sender`. -/
def stepDecision (C : Collaborators) (s : LoopState) :
    Except String LoopState :=
  match call_tools_llm C.currentYear C.adapter s.messages with
  | .error e => .error e
  | .ok u =>
    match exists_action (s.messages ++ [Msg.ai u.content u.tool_calls]) with
    | none => .error "IndexError"
    | some lbl =>
      match routeDecision lbl with
      | none => .error "unknown conditional edge label"
      | some n =>
        .ok { s with node := n,
                     messages := s.messages ++ [Msg.ai u.content u.tool_calls] }

/-- One execution of the `invoke_tools` node followed by its fixed edge
back to `call_tools_llm`: the round's results are appended together. -/
def stepTools (C : Collaborators) (s : LoopState) :
    Except String LoopState :=
  match s.messages.getLast? with
  | none => .error "IndexError"
  | some last =>
    match invoke_tools C.registry last.toolCalls with
    | .error e => .error e
    | .ok results =>
      .ok { s with node := .call_tools_llm,
                   messages := s.messages ++ results.map Msg.tool }

/-- One execution of the `email_sender` node (reached only past the gate):
format the last answer via the email llm, construct the `Mail` payload
from the environment, hand it to SendGrid — any fault from `send` is
caught and only printed, hence non-fatal — and follow the fixed edge to
`END`. The node returns `None`, so `messages` is unchanged. -/
def email_sender (C : Collaborators) (s : LoopState) :
    Except String LoopState :=
  match s.messages.getLast? with
  | none => .error "IndexError"
  | some last =>
    let body := C.emailLlm
      [Msg.system EMAILS_SYSTEM_PROMPT, Msg.human last.content]
    let payload : DeliveryPayload :=
      ⟨C.env.from_email, C.env.to_email, C.env.subject, body⟩
    match C.send payload with
    | _ => .ok { s with node := .END, sends := s.sends ++ [payload] }

/-- The graph executor without a resume signal: steps the scheduled node,
but stops at `email_sender` (the `interrupt_before` gate) and at `END`.
Fuel bounds the unbounded decide/execute sub-loop. -/
def run (C : Collaborators) : Nat → LoopState → Except String LoopState
  | 0, s => .ok s
  | Nat.succ fuel, s =>
    match s.node with
    | .email_sender => .ok s
    | .END => .ok s
    | .call_tools_llm =>
      match stepDecision C s with
      | .error e => .error e
      | .ok s1 => run C fuel s1
    | .invoke_tools =>
      match stepTools C s with
      | .error e => .error e
      | .ok s1 => run C fuel s1

/-- The external resume signal at the gate: if parked at `email_sender`,
execute it and continue; otherwise behave as `run`. -/
def resumeGate (C : Collaborators) (fuel : Nat) (s : LoopState) :
    Except String LoopState :=
  if s.node = Node.email_sender then
    match email_sender C s with
    | .error e => .error e
    | .ok s1 => run C fuel s1
  else run C fuel s

/-! ## Theorems -/

/-- A string that parses as a date is nonempty (so the truthiness check of
`hotels_finder` passes for it). -/
theorem parseDate_nonempty (s : String) (d : Date)
    (h : parseDate s = some d) : s ≠ "" := by
  intro hs
  subst hs
  rw [show parseDate "" = (none : Option Date) from rfl] at h
  exact Option.noConfusion h

/-- C8 counterexample: the claim's own example input
`check_in_date="2025-06-22", check_out_date="2025-06-20"`, run on the
current date 2026-10-12, hits the past-check-in validation (which the code
performs first) and returns the past-date error record, not the claimed
chronology error record. -/
theorem hotels_chronology_cex :
    hotels_finder none
      { q := "Paris", check_in_date := "2025-06-22",
        check_out_date := "2025-06-20" }
      ⟨2026, 10, 12⟩ =
        .errorRecord "`check_in_date` cannot be in the past." ∧
    HotelsFinderStep.errorRecord "`check_in_date` cannot be in the past." ≠
      HotelsFinderStep.errorRecord
        "check_out_date must be after check_in_date" :=
  ⟨by decide, by decide⟩

/-- C8 (amended): for every hotel-search input whose required fields are
present, whose dates parse, whose `check_in_date` is not before the current
date, and whose `check_out_date` ≤ `check_in_date`, `hotels_finder` returns
the error record `` {'error': '`check_out_date` must be after
`check_in_date`.'} `` and issues zero external search calls (the
`errorRecord` branch returns before the `serpapi.search` step). -/
theorem hotels_chronology_error (apiKey : Option String) (p : HotelsInput)
    (today ci co : Date)
    (hci : parseDate p.check_in_date = some ci)
    (hco : parseDate p.check_out_date = some co)
    (hq : p.q ≠ "")
    (hpast : dateLt ci today = false)
    (hord : dateLe co ci = true) :
    hotels_finder apiKey p today =
      .errorRecord "`check_out_date` must be after `check_in_date`." := by
  have h1 : p.check_in_date ≠ "" := parseDate_nonempty _ _ hci
  have h2 : p.check_out_date ≠ "" := parseDate_nonempty _ _ hco
  simp [hotels_finder, hq, h1, h2, hci, hco, hpast, hord]

/-- C8 witness: a future, misordered date range on the current date
2026-10-12 yields exactly the chronology error record. -/
theorem hotels_chronology_error_witness :
    hotels_finder none
      { q := "Paris", check_in_date := "2026-11-22",
        check_out_date := "2026-11-20" }
      ⟨2026, 10, 12⟩ =
      .errorRecord "`check_out_date` must be after `check_in_date`." :=
  hotels_chronology_error none _ ⟨2026, 10, 12⟩ ⟨2026, 11, 22⟩ ⟨2026, 11, 20⟩
    (by decide) (by decide) (by decide) (by decide) (by decide)

/-- C10: a parsed `check_in_date` strictly before the current date makes
`hotels_finder` return the past-date error record with zero external
calls, with no condition on the check-out date: the past-date check runs
before the chronology check, so it fires even for a chronologically
ordered range, and also preempts the chronology error when the range is
misordered. -/
theorem hotels_past_checkin_rejected (apiKey : Option String)
    (p : HotelsInput) (today ci co : Date)
    (hci : parseDate p.check_in_date = some ci)
    (hco : parseDate p.check_out_date = some co)
    (hq : p.q ≠ "")
    (hpast : dateLt ci today = true) :
    hotels_finder apiKey p today =
      .errorRecord "`check_in_date` cannot be in the past." := by
  have h1 : p.check_in_date ≠ "" := parseDate_nonempty _ _ hci
  have h2 : p.check_out_date ≠ "" := parseDate_nonempty _ _ hco
  simp [hotels_finder, hq, h1, h2, hci, hco, hpast]

/-- C10 witness: a well-formed, chronologically ordered range whose
check-in lies before the current date 2026-10-12 is rejected as past. -/
theorem hotels_past_checkin_rejected_witness :
    hotels_finder none
      { q := "Rome", check_in_date := "2026-01-01",
        check_out_date := "2026-01-05" }
      ⟨2026, 10, 12⟩ =
      .errorRecord "`check_in_date` cannot be in the past." :=
  hotels_past_checkin_rejected none _ ⟨2026, 10, 12⟩ ⟨2026, 1, 1⟩
    ⟨2026, 1, 5⟩ (by decide) (by decide) (by decide) (by decide)

/-- C9: an itinerary request with `days < 1` (in particular `days = 0`)
returns the validation error string with zero model calls for generation
(the `pureResult` branch returns before the `llmGeneration` step). -/
theorem itinerary_day_count_validation (p : ItineraryInput)
    (h : p.days < 1) :
    build_itinerary p = .pureResult "Error: `days` must be >= 1." := by
  simp [build_itinerary, h]

/-- C9 witness: `days = 0` on a concrete input. -/
theorem itinerary_day_count_validation_witness :
    build_itinerary { destination := "Goa", days := 0 } =
      .pureResult "Error: `days` must be >= 1." :=
  itinerary_day_count_validation _ (by decide)

/-- C1 counterexample: a capability fault inside `invoke_tools` is not
caught: with a registry whose `hotels_finder` capability raises `"boom"`,
the tool-execution step re-raises it instead of producing an
error-carrying `ToolResult` (no `.ok` result list exists to be appended
to history). -/
theorem capability_fault_propagation_cex :
    invoke_tools [⟨"hotels_finder", fun _ => .error "boom"⟩]
      [⟨"call1", "hotels_finder", "args"⟩] = .error "boom" := rfl

/-- C1 (amended): `invoke_tools` has no fault boundary around the
capability call: if the requests before `t` each complete in-band and
`t`'s capability raises `f`, the whole tool-execution step raises `f`,
aborting the round and appending nothing (fault containment lives inside
the individual tool bodies, not in `invoke_tools`). -/
theorem invoke_tools_capability_fault_aborts (reg : List ToolDef)
    (pre post : List ToolInvocationRequest) (t : ToolInvocationRequest)
    (f : String)
    (hpre : ∀ r ∈ pre, ∃ m, reqStep reg r = .ok m)
    (ht : reqStep reg t = .error f) :
    invoke_tools reg (pre ++ t :: post) = .error f := by
  induction pre with
  | nil => simp [invoke_tools, ht]
  | cons r rs ih =>
    obtain ⟨m, hm⟩ := hpre r (by simp)
    have := ih (fun x hx => hpre x (by simp [hx]))
    simp [invoke_tools, hm, this, Except.map]

/-- C1 witness: a registry whose `flights_finder` capability raises a
schema-validation fault makes the whole round raise that fault. -/
theorem invoke_tools_capability_fault_aborts_witness :
    invoke_tools
      [⟨"flights_finder", fun _ => .error "ValidationError: params"⟩]
      ([] ++ ⟨"c9", "flights_finder", "bad"⟩ :: []) =
      .error "ValidationError: params" :=
  invoke_tools_capability_fault_aborts _ [] [] _ _
    (fun r hr => absurd hr (List.not_mem_nil r)) rfl

/-- C2: on a model-decision call whose tool-aware invocation faults, a
capability-mismatch fault (per the substring classification of
`call_tools_llm`) degrades to the base variant for that call and yields a
`ModelUtterance` with zero tool requests — the base variant is the
unbound llm, whose replies carry no tool calls (hypothesis `hbase`) —
while any other fault propagates as raised. -/
theorem call_tools_llm_capability_fallback (currentYear : Nat)
    (A : ModelAdapter) (messages : List Msg) (e : String)
    (htool : ∀ ms, A.toolsLlm ms = .error e)
    (hbase : ∀ ms, (A.baseLlm ms).tool_calls = []) :
    (isCapabilityMismatch e = true →
      ∃ u, call_tools_llm currentYear A messages = .ok u ∧
        u.tool_calls = []) ∧
    (isCapabilityMismatch e = false →
      call_tools_llm currentYear A messages = .error e) := by
  constructor
  · intro hmis
    exact ⟨A.baseLlm (Msg.system (TOOLS_SYSTEM_PROMPT currentYear) :: messages),
      by simp [call_tools_llm, htool, hmis], hbase _⟩
  · intro hmis
    simp [call_tools_llm, htool, hmis]

/-- C2 witness: a stub whose tool-aware call always raises the Ollama-style
capability-mismatch text falls back to a tool-free reply. -/
theorem call_tools_llm_capability_fallback_witness :
    ∃ u, call_tools_llm 2026
        ⟨fun _ => .error "llama3 does not support tools",
         fun _ => ⟨"plain answer", []⟩⟩ [Msg.human "hi"] = .ok u ∧
      u.tool_calls = [] :=
  (call_tools_llm_capability_fallback 2026
      ⟨fun _ => .error "llama3 does not support tools",
       fun _ => ⟨"plain answer", []⟩⟩ [Msg.human "hi"]
      "llama3 does not support tools" (fun _ => rfl) (fun _ => rfl)).1
    (by decide)

/-- C3: a successful model-decision step appends the utterance and moves
to exactly one of two nodes — the `email_sender` gate when the utterance
carries zero tool requests, the `invoke_tools` node when it carries at
least one — and a successful tool-execution step always returns to the
model-decision node. -/
theorem decision_successor_states (C : Collaborators) (s s' : LoopState)
    (h : stepDecision C s = .ok s') :
    (s'.node = Node.email_sender ∨ s'.node = Node.invoke_tools) ∧
    (∃ u, call_tools_llm C.currentYear C.adapter s.messages = .ok u ∧
      s'.messages = s.messages ++ [Msg.ai u.content u.tool_calls] ∧
      (u.tool_calls = [] → s'.node = Node.email_sender) ∧
      (u.tool_calls ≠ [] → s'.node = Node.invoke_tools)) ∧
    (∀ s1 s2 : LoopState, stepTools C s1 = .ok s2 →
      s2.node = Node.call_tools_llm) := by
  have hT : ∀ s1 s2 : LoopState, stepTools C s1 = .ok s2 →
      s2.node = Node.call_tools_llm := by
    intro s1 s2 h2
    unfold stepTools at h2
    split at h2
    · exact absurd h2 (by simp)
    · split at h2
      · exact absurd h2 (by simp)
      · simp only [Except.ok.injEq] at h2
        subst h2
        rfl
  unfold stepDecision at h
  cases hc : call_tools_llm C.currentYear C.adapter s.messages with
  | error e => rw [hc] at h; exact absurd h (by simp)
  | ok u =>
    rw [hc] at h
    simp only [exists_action, List.getLast?_concat, Msg.toolCalls] at h
    cases htc : u.tool_calls with
    | nil =>
      rw [htc] at h
      rw [show routeDecision (if ([] : List ToolInvocationRequest).length = 0
            then "email_sender" else "more_tools") =
          some Node.email_sender from by decide] at h
      simp only [Except.ok.injEq] at h
      subst h
      exact ⟨Or.inl rfl, ⟨u, rfl, by simp [htc], fun _ => rfl,
        fun hne => absurd htc hne⟩, hT⟩
    | cons t ts =>
      rw [htc] at h
      rw [show routeDecision (if (t :: ts).length = 0
            then "email_sender" else "more_tools") =
          some Node.invoke_tools from by simp [routeDecision]] at h
      simp only [Except.ok.injEq] at h
      subst h
      exact ⟨Or.inr rfl, ⟨u, rfl, by simp [htc], fun heq => by
        rw [htc] at heq; exact absurd heq (by simp), fun _ => rfl⟩, hT⟩

/-- C3 witness: a stub model reply with zero tool requests routes the
concrete step to the `email_sender` gate. -/
theorem decision_successor_states_witness :
    (⟨Node.email_sender, [Msg.human "hi", Msg.ai "done" []],
        ([] : List DeliveryPayload)⟩ : LoopState).node = Node.email_sender ∨
    (⟨Node.email_sender, [Msg.human "hi", Msg.ai "done" []],
        ([] : List DeliveryPayload)⟩ : LoopState).node = Node.invoke_tools :=
  (decision_successor_states
      ⟨2026, ⟨fun _ => .ok ⟨"done", []⟩, fun _ => ⟨"", []⟩⟩, [],
        fun _ => "", ⟨"f", "t", "s"⟩, fun _ => .ok 202⟩
      ⟨Node.call_tools_llm, [Msg.human "hi"], []⟩
      ⟨Node.email_sender, [Msg.human "hi", Msg.ai "done" []], []⟩
      rfl).1

/-- Identifier correlation of one in-band tool result: a completed
`reqStep` carries the request's call id and tool name. -/
theorem reqStep_ok_ids (reg : List ToolDef) (t : ToolInvocationRequest)
    (m : ToolMessage) (h : reqStep reg t = .ok m) :
    m.tool_call_id = t.id ∧ m.name = t.name := by
  unfold reqStep at h
  split at h
  · simp only [Except.ok.injEq] at h
    subst h
    exact ⟨rfl, rfl⟩
  · rename_i td _
    cases hc : td.capability t.args with
    | error e => rw [hc] at h; exact absurd h (by simp [Except.map])
    | ok r =>
      rw [hc] at h
      simp only [Except.map, Except.ok.injEq] at h
      subst h
      exact ⟨rfl, rfl⟩

/-- A completed `invoke_tools` round yields one result per request, and
the k-th result carries the k-th request's call id and tool name. -/
theorem invoke_tools_ok_spec (reg : List ToolDef) :
    ∀ (reqs : List ToolInvocationRequest) (results : List ToolMessage),
      invoke_tools reg reqs = .ok results →
      results.length = reqs.length ∧
      ∀ k, k < reqs.length →
        ∃ r t, results[k]? = some r ∧ reqs[k]? = some t ∧
          r.tool_call_id = t.id ∧ r.name = t.name := by
  intro reqs
  induction reqs with
  | nil =>
    intro results h
    simp only [invoke_tools, Except.ok.injEq] at h
    subst h
    exact ⟨rfl, fun k hk => absurd hk (by simp)⟩
  | cons t ts ih =>
    intro results h
    unfold invoke_tools at h
    cases hs : reqStep reg t with
    | error e => rw [hs] at h; exact absurd h (by simp)
    | ok m =>
      rw [hs] at h
      cases hr : invoke_tools reg ts with
      | error e => rw [hr] at h; exact absurd h (by simp [Except.map])
      | ok rest =>
        rw [hr] at h
        simp only [Except.map, Except.ok.injEq] at h
        subst h
        obtain ⟨hlen, hidx⟩ := ih rest hr
        obtain ⟨hid, hname⟩ := reqStep_ok_ids reg t m hs
        refine ⟨by simp [hlen], ?_⟩
        intro k hk
        cases k with
        | zero => exact ⟨m, t, by simp, by simp, hid, hname⟩
        | succ j =>
          have hj : j < ts.length := by simpa using hk
          obtain ⟨r, t', h1, h2, h3, h4⟩ := hidx j hj
          exact ⟨r, t', by simpa using h1, by simpa using h2, h3, h4⟩

/-- C4 counterexample: a round with one request whose capability raises
appends no `ToolResult` at all — the step raises instead of appending
exactly one result for the request. -/
theorem tool_round_results_cex :
    stepTools
      ⟨2026, ⟨fun _ => .ok ⟨"", []⟩, fun _ => ⟨"", []⟩⟩,
        [⟨"hotels_finder", fun _ => .error "ValidationError"⟩],
        fun _ => "", ⟨"f", "t", "s"⟩, fun _ => .ok 202⟩
      ⟨Node.invoke_tools,
        [Msg.ai "plan" [⟨"call1", "hotels_finder", "bad"⟩]], []⟩ =
      .error "ValidationError" := rfl

/-- C4 (amended): whenever the tool-execution step completes (every
capability invocation of the round returned rather than raised), it
appends exactly one `ToolResult` per request, all together, in request
order, the k-th carrying the k-th request's call id and tool name, before
control returns to the model-decision node; if any capability raises, the
step raises and appends nothing. -/
theorem tool_round_results_in_order (C : Collaborators) (s s' : LoopState)
    (last : Msg) (results : List ToolMessage)
    (hl : s.messages.getLast? = some last)
    (hinv : invoke_tools C.registry last.toolCalls = .ok results)
    (h : stepTools C s = .ok s') :
    s'.messages = s.messages ++ results.map Msg.tool ∧
    s'.node = Node.call_tools_llm ∧
    results.length = last.toolCalls.length ∧
    ∀ k, k < last.toolCalls.length →
      ∃ r t, results[k]? = some r ∧ last.toolCalls[k]? = some t ∧
        r.tool_call_id = t.id ∧ r.name = t.name := by
  simp only [stepTools, hl, hinv, Except.ok.injEq] at h
  subst h
  obtain ⟨hlen, hidx⟩ :=
    invoke_tools_ok_spec C.registry last.toolCalls results hinv
  exact ⟨rfl, rfl, hlen, hidx⟩

/-- C4 witness: a two-request round (one unknown name, one in-registry
echo tool) appends exactly two results, matching the request count. -/
theorem tool_round_results_in_order_witness :
    ([⟨"1", "nope", invalidToolMsg⟩, ⟨"2", "echo", "y"⟩] :
        List ToolMessage).length =
      (Msg.ai "plan" [⟨"1", "nope", "x"⟩, ⟨"2", "echo", "y"⟩]).toolCalls.length :=
  (tool_round_results_in_order
      ⟨2026, ⟨fun _ => .ok ⟨"", []⟩, fun _ => ⟨"", []⟩⟩,
        [⟨"echo", fun a => .ok a⟩], fun _ => "", ⟨"f", "t", "s"⟩,
        fun _ => .ok 202⟩
      ⟨Node.invoke_tools,
        [Msg.ai "plan" [⟨"1", "nope", "x"⟩, ⟨"2", "echo", "y"⟩]], []⟩
      ⟨Node.call_tools_llm,
        [Msg.ai "plan" [⟨"1", "nope", "x"⟩, ⟨"2", "echo", "y"⟩],
         Msg.tool ⟨"1", "nope", invalidToolMsg⟩,
         Msg.tool ⟨"2", "echo", "y"⟩], []⟩
      (Msg.ai "plan" [⟨"1", "nope", "x"⟩, ⟨"2", "echo", "y"⟩])
      [⟨"1", "nope", invalidToolMsg⟩, ⟨"2", "echo", "y"⟩]
      rfl rfl rfl).2.2.1

/-- A round whose requests all name unknown tools completes in-band with
the synthesized error payloads, one per request, in order. -/
theorem invoke_tools_all_unknown (reg : List ToolDef) :
    ∀ reqs : List ToolInvocationRequest,
      (∀ r ∈ reqs, lookupTool reg r.name = none) →
      invoke_tools reg reqs =
        .ok (reqs.map fun r => ⟨r.id, r.name, invalidToolMsg⟩) := by
  intro reqs
  induction reqs with
  | nil => intro _; rfl
  | cons t ts ih =>
    intro hunk
    have ht := hunk t (by simp)
    have hts := ih (fun r hr => hunk r (by simp [hr]))
    simp [invoke_tools, reqStep, ht, hts, Except.map]

/-- C5: a tool-execution step over requests whose tool names are all
absent from the registry does not raise: it appends, per request, a
synthesized `ToolResult` carrying the invalid-tool-name payload, and
control moves back to the model-decision node. -/
theorem unknown_tool_resilience (C : Collaborators) (s : LoopState)
    (last : Msg) (hl : s.messages.getLast? = some last)
    (hunk : ∀ r ∈ last.toolCalls, lookupTool C.registry r.name = none) :
    stepTools C s = .ok
      { s with node := Node.call_tools_llm,
               messages := s.messages ++
                 last.toolCalls.map
                   (fun r => Msg.tool ⟨r.id, r.name, invalidToolMsg⟩) } := by
  simp [stepTools, hl,
    invoke_tools_all_unknown C.registry last.toolCalls hunk,
    List.map_map, Function.comp]

/-- C5 witness: one request naming the unregistered tool `ghost` yields
the in-band invalid-tool-name result and a return to the decision node. -/
theorem unknown_tool_resilience_witness :
    stepTools
      ⟨2026, ⟨fun _ => .ok ⟨"", []⟩, fun _ => ⟨"", []⟩⟩, [],
        fun _ => "", ⟨"f", "t", "s"⟩, fun _ => .ok 202⟩
      ⟨Node.invoke_tools, [Msg.ai "plan" [⟨"c1", "ghost", "a"⟩]], []⟩ =
      .ok ⟨Node.call_tools_llm,
        [Msg.ai "plan" [⟨"c1", "ghost", "a"⟩],
         Msg.tool ⟨"c1", "ghost", invalidToolMsg⟩], []⟩ :=
  unknown_tool_resilience _ _ (Msg.ai "plan" [⟨"c1", "ghost", "a"⟩]) rfl
    (fun _ _ => rfl)

/-- A successful model-decision step leaves the delivery trace unchanged. -/
theorem stepDecision_sends (C : Collaborators) (s s' : LoopState)
    (h : stepDecision C s = .ok s') : s'.sends = s.sends := by
  unfold stepDecision at h
  split at h
  · exact absurd h (by simp)
  · split at h
    · exact absurd h (by simp)
    · split at h
      · exact absurd h (by simp)
      · simp only [Except.ok.injEq] at h
        subst h
        rfl

/-- A successful tool-execution step leaves the delivery trace
unchanged. -/
theorem stepTools_sends (C : Collaborators) (s s' : LoopState)
    (h : stepTools C s = .ok s') : s'.sends = s.sends := by
  unfold stepTools at h
  split at h
  · exact absurd h (by simp)
  · split at h
    · exact absurd h (by simp)
    · simp only [Except.ok.injEq] at h
      subst h
      rfl

/-- Gate-free execution never touches the delivery trace. -/
theorem run_sends_eq (C : Collaborators) :
    ∀ (fuel : Nat) (s s' : LoopState),
      run C fuel s = .ok s' → s'.sends = s.sends := by
  intro fuel
  induction fuel with
  | zero =>
    intro s s' h
    simp only [run, Except.ok.injEq] at h
    subst h
    rfl
  | succ n ih =>
    intro s s' h
    unfold run at h
    split at h
    · simp only [Except.ok.injEq] at h; subst h; rfl
    · simp only [Except.ok.injEq] at h; subst h; rfl
    · split at h
      · exact absurd h (by simp)
      · rename_i s1 hd
        rw [ih s1 s' h, stepDecision_sends C s s1 hd]
    · split at h
      · exact absurd h (by simp)
      · rename_i s1 ht
        rw [ih s1 s' h, stepTools_sends C s s1 ht]

/-- C6: without an external resume signal the executor (which, per
`interrupt_before`, parks at the `email_sender` node) constructs no
`DeliveryPayload` and never invokes the delivery collaborator — the
delivery trace stays as it was — and from the gate state it does not
auto-advance at all. -/
theorem gate_blocks_delivery (C : Collaborators) (fuel : Nat)
    (s s' : LoopState) (h : run C fuel s = .ok s') :
    s'.sends = s.sends ∧ (s.node = Node.email_sender → s' = s) := by
  refine ⟨run_sends_eq C fuel s s' h, fun hn => ?_⟩
  cases fuel with
  | zero =>
    simp only [run, Except.ok.injEq] at h
    exact h.symm
  | succ n =>
    unfold run at h
    split at h
    · simp only [Except.ok.injEq] at h
      exact h.symm
    · simp only [Except.ok.injEq] at h
      exact h.symm
    · rename_i heq
      rw [hn] at heq
      exact absurd heq (by simp)
    · rename_i heq
      rw [hn] at heq
      exact absurd heq (by simp)

/-- C6 witness: one decision round with a tool-free reply parks at the
gate with an unchanged (empty) delivery trace. -/
theorem gate_blocks_delivery_witness :
    ([] : List DeliveryPayload) = [] ∧
    ((⟨Node.call_tools_llm, [Msg.human "hi"], []⟩ : LoopState).node =
        Node.email_sender →
      (⟨Node.email_sender, [Msg.human "hi", Msg.ai "done" []],
          ([] : List DeliveryPayload)⟩ : LoopState) =
        ⟨Node.call_tools_llm, [Msg.human "hi"], []⟩) :=
  gate_blocks_delivery
    ⟨2026, ⟨fun _ => .ok ⟨"done", []⟩, fun _ => ⟨"", []⟩⟩, [],
      fun _ => "", ⟨"f", "t", "s"⟩, fun _ => .ok 202⟩
    2 ⟨Node.call_tools_llm, [Msg.human "hi"], []⟩
    ⟨Node.email_sender, [Msg.human "hi", Msg.ai "done" []], []⟩ rfl

/-- A successful model-decision step only appends to `messages`. -/
theorem stepDecision_messages_delta (C : Collaborators) (s s' : LoopState)
    (h : stepDecision C s = .ok s') :
    ∃ d, s'.messages = s.messages ++ d := by
  unfold stepDecision at h
  split at h
  · exact absurd h (by simp)
  · split at h
    · exact absurd h (by simp)
    · split at h
      · exact absurd h (by simp)
      · simp only [Except.ok.injEq] at h
        subst h
        exact ⟨_, rfl⟩

/-- A successful tool-execution step only appends to `messages`. -/
theorem stepTools_messages_delta (C : Collaborators) (s s' : LoopState)
    (h : stepTools C s = .ok s') :
    ∃ d, s'.messages = s.messages ++ d := by
  unfold stepTools at h
  split at h
  · exact absurd h (by simp)
  · split at h
    · exact absurd h (by simp)
    · simp only [Except.ok.injEq] at h
      subst h
      exact ⟨_, rfl⟩

/-- A successful finalization step appends nothing to `messages` (the
node returns no messages delta). -/
theorem email_sender_messages_delta (C : Collaborators) (s s' : LoopState)
    (h : email_sender C s = .ok s') :
    ∃ d, s'.messages = s.messages ++ d := by
  unfold email_sender at h
  cases hl : s.messages.getLast? with
  | none => rw [hl] at h; exact absurd h (by simp)
  | some last =>
    rw [hl] at h
    simp only [Except.ok.injEq] at h
    subst h
    exact ⟨[], by simp⟩

/-- Gate-free execution only ever extends `messages`. -/
theorem run_history_monotone (C : Collaborators) :
    ∀ (fuel : Nat) (s s' : LoopState),
      run C fuel s = .ok s' → s.messages <+: s'.messages := by
  intro fuel
  induction fuel with
  | zero =>
    intro s s' h
    simp only [run, Except.ok.injEq] at h
    subst h
    exact List.prefix_rfl
  | succ n ih =>
    intro s s' h
    unfold run at h
    split at h
    · simp only [Except.ok.injEq] at h; subst h; exact List.prefix_rfl
    · simp only [Except.ok.injEq] at h; subst h; exact List.prefix_rfl
    · split at h
      · exact absurd h (by simp)
      · rename_i s1 hd
        obtain ⟨d, hdm⟩ := stepDecision_messages_delta C s s1 hd
        exact List.IsPrefix.trans ⟨d, hdm.symm⟩ (ih s1 s' h)
    · split at h
      · exact absurd h (by simp)
      · rename_i s1 ht
        obtain ⟨d, hdm⟩ := stepTools_messages_delta C s s1 ht
        exact List.IsPrefix.trans ⟨d, hdm.symm⟩ (ih s1 s' h)

/-- C7: each step of the loop (model decision, tool execution,
finalization) changes `messages` only by appending zero or more entries
at the end, and across any gate-free execution the old history stays a
prefix of the new one, so the length never decreases. -/
theorem messages_append_only (C : Collaborators) (s : LoopState) :
    (∀ s', stepDecision C s = .ok s' →
      ∃ d, s'.messages = s.messages ++ d) ∧
    (∀ s', stepTools C s = .ok s' →
      ∃ d, s'.messages = s.messages ++ d) ∧
    (∀ s', email_sender C s = .ok s' →
      ∃ d, s'.messages = s.messages ++ d) ∧
    (∀ fuel s', run C fuel s = .ok s' →
      s.messages <+: s'.messages ∧
      s.messages.length ≤ s'.messages.length) :=
  ⟨fun s' h => stepDecision_messages_delta C s s' h,
   fun s' h => stepTools_messages_delta C s s' h,
   fun s' h => email_sender_messages_delta C s s' h,
   fun fuel s' h =>
     ⟨run_history_monotone C fuel s s' h,
      (run_history_monotone C fuel s s' h).length_le⟩⟩

/-- C7 witness: concrete decision, tool, finalization and run steps each
only extend the history. -/
theorem messages_append_only_witness :
    (∃ d, ([Msg.human "hi", Msg.ai "done" []] : List Msg) =
      [Msg.human "hi"] ++ d) ∧
    (∃ d, ([Msg.ai "plan" []] : List Msg) = [Msg.ai "plan" []] ++ d) ∧
    (∃ d, ([Msg.ai "answer" []] : List Msg) = [Msg.ai "answer" []] ++ d) ∧
    (([Msg.human "hi"] : List Msg) <+: [Msg.human "hi", Msg.ai "done" []] ∧
      ([Msg.human "hi"] : List Msg).length ≤
        ([Msg.human "hi", Msg.ai "done" []] : List Msg).length) :=
  ⟨(messages_append_only
      ⟨2026, ⟨fun _ => .ok ⟨"done", []⟩, fun _ => ⟨"", []⟩⟩, [],
        fun _ => "", ⟨"f", "t", "s"⟩, fun _ => .ok 202⟩
      ⟨Node.call_tools_llm, [Msg.human "hi"], []⟩).1
    ⟨Node.email_sender, [Msg.human "hi", Msg.ai "done" []], []⟩ rfl,
   (messages_append_only
      ⟨2026, ⟨fun _ => .ok ⟨"done", []⟩, fun _ => ⟨"", []⟩⟩, [],
        fun _ => "", ⟨"f", "t", "s"⟩, fun _ => .ok 202⟩
      ⟨Node.invoke_tools, [Msg.ai "plan" []], []⟩).2.1
    ⟨Node.call_tools_llm, [Msg.ai "plan" []], []⟩ rfl,
   (messages_append_only
      ⟨2026, ⟨fun _ => .ok ⟨"done", []⟩, fun _ => ⟨"", []⟩⟩, [],
        fun _ => "body", ⟨"f", "t", "s"⟩, fun _ => .ok 202⟩
      ⟨Node.email_sender, [Msg.ai "answer" []], []⟩).2.2.1
    ⟨Node.END, [Msg.ai "answer" []], [⟨"f", "t", "s", "body"⟩]⟩ rfl,
   (messages_append_only
      ⟨2026, ⟨fun _ => .ok ⟨"done", []⟩, fun _ => ⟨"", []⟩⟩, [],
        fun _ => "", ⟨"f", "t", "s"⟩, fun _ => .ok 202⟩
      ⟨Node.call_tools_llm, [Msg.human "hi"], []⟩).2.2.2 2
    ⟨Node.email_sender, [Msg.human "hi", Msg.ai "done" []], []⟩ rfl⟩

end TravelAgent
